import Mathlib

/-!
Shallow embedding of `src/dp/core/cpu.c` (zygos): the cross-core deferred
work mechanism (`cpu_run_on_one`, `cpu_do_bookkeeping`), the per-core
bring-up sequence (`cpu_init_one`), the topology scan (`parse_cpuinfo`)
and subsystem initialization (`cpu_init`).

Machine integers that matter here are small non-negative indices and
counters, modelled as `Nat`; C `int` return codes and parsed values are
modelled as `Int`.  Function pointers and their `void *` arguments are
opaque to this file, so they are modelled as `Nat` tokens; "executing" a
work item is recorded as an event in a trace rather than as an actual
call.  Spinlock acquisition/release and the queue-head swap are likewise
recorded as trace events, so that statements about what happens "under
the lock" and in which order are expressible in a sequential model.
-/

-- errno values (ix/errno.h mirrors Linux errno numbering); the name of
-- the input/output error code is EIO_val here because plain EIO is taken
-- by the Lean core library.
def EPERM : Int := 1
def EIO_val : Int := 5
def ENOMEM : Int := 12
def EINVAL : Int := 22
def ENOSYS : Int := 38

/-- Pointwise update of a table modelled as a function `Nat → α`. -/
def upd {α : Type} (f : Nat → α) (i : Nat) (v : α) : Nat → α :=
  fun n => if n = i then v else f n

/-- Models `struct cpu_runner` (cpu.c:59-63): the queued function/argument
pair.  The `next` link is represented by list structure. -/
structure Runner where
  func : Nat
  data : Nat
  deriving DecidableEq

/-- Observable events of the work-dispatch code, in program order:
spinlock acquire/release on a given core's runlist lock, the head push of
`cpu_run_on_one` (cpu.c:110-111), the head swap of `cpu_do_bookkeeping`
(cpu.c:127-128), execution of a runner's function (cpu.c:133), and
`mempool_free` into a given core's pool (cpu.c:135). -/
inductive Event where
  | lock (cpu : Nat)
  | unlock (cpu : Nat)
  | push (cpu : Nat)
  | swap (cpu : Nat)
  | call (func : Nat) (data : Nat)
  | free (pool : Nat)
  deriving DecidableEq

/-- The mutable state the work-dispatch code touches: the global
`cpu_count` (cpu.c:43), the per-cpu `runlist` heads (cpu.c:75, queue head
first), and the number of free elements in each per-cpu `runners_mempool`
(cpu.c:81); `mempool_alloc` returns NULL exactly when the pool has no
free element. -/
structure CpuSys where
  cpu_count : Nat
  runlist : Nat → List Runner
  poolFree : Nat → Nat

/-- Models `cpu_run_on_one` (cpu.c:91-115) invoked on core `caller`
(so `percpu_get(runners_mempool)` at cpu.c:99 is `caller`'s pool, while
`percpu_get_remote(runlist, cpu)` at cpu.c:107 is the target's queue).
Returns the C return value, the new state, and the event trace. -/
def cpu_run_on_one (s : CpuSys) (caller : Nat) (func data : Nat) (cpu : Nat) :
    Int × CpuSys × List Event :=
  if cpu ≥ s.cpu_count then (-EINVAL, s, [])
  else if s.poolFree caller = 0 then (-ENOMEM, s, [])
  else
    let s1 : CpuSys := { s with poolFree := upd s.poolFree caller (s.poolFree caller - 1) }
    let s2 : CpuSys := { s1 with
      runlist := upd s1.runlist cpu ({ func := func, data := data } :: s1.runlist cpu) }
    (0, s2, [Event.lock cpu, Event.push cpu, Event.unlock cpu])

/-- Models the locked swap phase of `cpu_do_bookkeeping` (cpu.c:125-129):
if the head is non-NULL, capture the chain and swap the head to NULL
under the lock.  Returns the captured chain, the new state and the trace. -/
def drain_capture (s : CpuSys) (c : Nat) : List Runner × CpuSys × List Event :=
  if s.runlist c = [] then ([], s, [])
  else (s.runlist c, { s with runlist := upd s.runlist c [] },
        [Event.lock c, Event.swap c, Event.unlock c])

/-- Models the execution loop of `cpu_do_bookkeeping` (cpu.c:131-136):
walk the captured chain, call each runner's function, then free it into
core `c`'s pool (`percpu_get(runners_mempool)` on the draining core). -/
def drain_execute (s : CpuSys) (c : Nat) : List Runner → CpuSys × List Event
  | [] => (s, [])
  | r :: rest =>
    let s1 : CpuSys := { s with poolFree := upd s.poolFree c (s.poolFree c + 1) }
    let next := drain_execute s1 c rest
    (next.1, Event.call r.func r.data :: Event.free c :: next.2)

/-- Models `cpu_do_bookkeeping` (cpu.c:120-138) running on core `c`:
nothing at all happens when the head is NULL (cpu.c:125); otherwise the
locked swap is followed by the execution loop, after the lock is
released. -/
def cpu_do_bookkeeping (s : CpuSys) (c : Nat) : CpuSys × List Event :=
  if s.runlist c = [] then (s, [])
  else
    let cap := drain_capture s c
    let ex := drain_execute cap.2.1 c cap.1
    (ex.1, cap.2.2 ++ ex.2)

/-- The subsequence of function executions in a trace, in order. -/
def callsOf : List Event → List (Nat × Nat)
  | [] => []
  | Event.call f d :: rest => (f, d) :: callsOf rest
  | _ :: rest => callsOf rest

/-- The events the drain loop emits for a given chain (they do not depend
on the incoming state). -/
def chainEvents (c : Nat) : List Runner → List Event
  | [] => []
  | r :: rest => Event.call r.func r.data :: Event.free c :: chainEvents c rest

/-- A tiny concrete two-core system: one free pool slot per core, empty
queues.  Used to instantiate theorems at concrete inputs. -/
def s0 : CpuSys := { cpu_count := 2, runlist := fun _ => [], poolFree := fun _ => 1 }

/-- A concrete two-core system whose core 0 queue already holds one item
and whose pools have two free slots each. -/
def s0q : CpuSys :=
  { cpu_count := 2,
    runlist := fun n => if n = 0 then [{ func := 3, data := 4 }] else [],
    poolFree := fun _ => 2 }

/-- A concrete one-core system with three free pool slots and an empty
queue. -/
def s3p : CpuSys := { cpu_count := 1, runlist := fun _ => [], poolFree := fun _ => 3 }

/-- Iterated submissions to core `c`, each made from core `c` itself
(caller = target), in list order. -/
def submit_all (s : CpuSys) (c : Nat) : List (Nat × Nat) → CpuSys
  | [] => s
  | (f, d) :: rest => submit_all (cpu_run_on_one s c f d c).2.1 c rest

/-- One record of `static struct apicid_map` (cpu.c:70-73). -/
structure ApicidEntry where
  processor : Int
  apicid : Int
  deriving DecidableEq

/-- One `fgets` outcome while scanning the topology source: a full text
line, or a read failure that is not end-of-file (cpu.c:237-242). -/
inductive ReadEvent where
  | line (s : String)
  | readError
  deriving DecidableEq

/-- Skip leading whitespace, as the scanf whitespace directives do. -/
def skipWs : List Char → List Char
  | [] => []
  | c :: rest => if c.isWhitespace then skipWs rest else c :: rest

/-- The maximal leading run of non-whitespace characters and the rest of
the input (models the %*s conversion, which fails on empty input). -/
def takeTok : List Char → List Char × List Char
  | [] => ([], [])
  | c :: rest =>
    if c.isWhitespace then ([], c :: rest)
    else
      let p := takeTok rest
      (c :: p.1, p.2)

/-- The maximal leading run of decimal digits and the rest of the input. -/
def takeDigits : List Char → List Char × List Char
  | [] => ([], [])
  | c :: rest =>
    if c.isDigit then
      let p := takeDigits rest
      (c :: p.1, p.2)
    else ([], c :: rest)

/-- Value of a string of decimal digits. -/
def digitsVal (ds : List Char) : Nat :=
  ds.foldl (fun a c => a * 10 + (c.toNat - 48)) 0

/-- Models the %d conversion: skip whitespace, an optional sign, then at
least one digit; `none` when no digit is found (a matching failure). -/
def scan_int (cs : List Char) : Option Int :=
  match skipWs cs with
  | '-' :: rest =>
    let p := takeDigits rest
    if p.1.isEmpty then none else some (-(digitsVal p.1 : Int))
  | '+' :: rest =>
    let p := takeDigits rest
    if p.1.isEmpty then none else some ((digitsVal p.1 : Int))
  | other =>
    let p := takeDigits other
    if p.1.isEmpty then none else some ((digitsVal p.1 : Int))

/-- Models `sscanf(buf, "%*s : %d", &v) == 1 ? some v : none`
(cpu.c:245, cpu.c:253): skip a leading token, whitespace, a literal
colon, then convert an integer. -/
def scanIdVal (s : String) : Option Int :=
  let p := takeTok (skipWs s.data)
  if p.1.isEmpty then none
  else
    match skipWs p.2 with
    | ':' :: rest => scan_int rest
    | _ => none

/-- Models the `while (true)` scan loop of `parse_cpuinfo`
(cpu.c:236-263).  `proc` is the local variable `processor`: `none` while
it is still uninitialized, in which case a recorded entry receives the
indeterminate value `junk`.  Both prefix tests of the C code are checked
on every line, in source order (cpu.c:244 then cpu.c:252). -/
def parse_cpuinfo_loop (junk : Int) : List ReadEvent → Option Int → List ApicidEntry →
    Int × List ApicidEntry
  | [], _, acc => (0, acc)
  | ReadEvent.readError :: _, _, acc => (-EIO_val, acc)
  | ReadEvent.line s :: rest, proc, acc =>
    let pstep : Option (Option Int) :=
      if "processor".data.isPrefixOf s.data then
        match scanIdVal s with
        | none => none
        | some p => some (some p)
      else some proc
    match pstep with
    | none => (-EIO_val, acc)
    | some proc2 =>
      if "apicid".data.isPrefixOf s.data then
        match scanIdVal s with
        | none => (-EIO_val, acc)
        | some a =>
          parse_cpuinfo_loop junk rest proc2
            (acc ++ [{ processor := proc2.getD junk, apicid := a }])
      else parse_cpuinfo_loop junk rest proc2 acc

/-- Models `parse_cpuinfo` (cpu.c:226-268).  The `/proc/cpuinfo` stream is
external input: `none` models an `fopen` failure; otherwise the list of
`fgets` outcomes is scanned.  `junk` is the indeterminate value of the
uninitialized local `processor` before any processor record has been
seen.  Returns the C return value together with the `apicid_map` entries
recorded in discovery order. -/
def parse_cpuinfo (junk : Int) (input : Option (List ReadEvent)) :
    Int × List ApicidEntry :=
  match input with
  | none => (-EIO_val, [])
  | some evs => parse_cpuinfo_loop junk evs none []

/-- A scan input item the C loop accepts: any read line whose recognized
records (processor/apicid prefix) carry a parsable value; a read error is
never accepted. -/
def goodEvent : ReadEvent → Bool
  | ReadEvent.readError => false
  | ReadEvent.line s =>
    (!("processor".data.isPrefixOf s.data) || (scanIdVal s).isSome) &&
    (!("apicid".data.isPrefixOf s.data) || (scanIdVal s).isSome)

/-- Outcomes of the external calls `cpu_init_one` makes, gathered into an
environment: `sched_setaffinity` (cpu.c:184), the `SYS_getcpu` syscall
(cpu.c:188, which also reports the running cpu and the numa node),
whether `mem_alloc_pages_onnode` inside `cpu_init_percpu` succeeds
(cpu.c:145-148), `dune_enter_ex` (cpu.c:201) and `mempool_create`
(cpu.c:216). -/
structure InitEnv where
  affinity_ret : Int
  getcpu_ret : Int
  getcpu_cpu : Nat
  getcpu_node : Nat
  alloc_ok : Bool
  dune_ret : Int
  mempool_ret : Int

/-- The state `cpu_init_one` writes, field by field: the thread's
affinity binding (cpu.c:184), `percpu_offsets[cpu]` set by
`cpu_init_percpu` (cpu.c:155), whether Dune was entered (cpu.c:201), the
per-cpu variables `cpu_id`, `cpu_numa_node`, `apicid` (cpu.c:207-213),
and whether the runner pool was created (cpu.c:216). -/
structure PerCpuState where
  affinity_bound : Option Nat
  percpu_offset_set : Bool
  dune_entered : Bool
  cpu_id_v : Option Nat
  cpu_numa_node_v : Option Nat
  apicid_v : Option Int
  pool_created : Bool
  deriving DecidableEq

/-- The all-unset state before `cpu_init_one` runs. -/
def initPerCpu : PerCpuState :=
  { affinity_bound := none, percpu_offset_set := false, dune_entered := false,
    cpu_id_v := none, cpu_numa_node_v := none, apicid_v := none, pool_created := false }

/-- Result of `cpu_init_one`: 0, a negative errno, or the `assert` at
cpu.c:212 firing (which aborts the process rather than returning). -/
inductive InitResult where
  | ok
  | err (e : Int)
  | assertFail
  deriving DecidableEq

/-- First index `i < ncpu` with `apicid_map[i].processor == cpu`, the
search loop at cpu.c:209-211 over the NCPU-entry `apicid_map` array. -/
def apicid_lookup (ncpu : Nat) (amap : Nat → ApicidEntry) (cpu : Nat) : Option Nat :=
  (List.range ncpu).find? (fun i => (amap i).processor == (cpu : Int))

/-- Models `cpu_init_one` (cpu.c:172-224).  `ncpu` is the compile-time
constant NCPU, `cpu_count` the global set by `cpu_init`, `amap` the
NCPU-entry `apicid_map` array.  The branches appear in source order:
range check (cpu.c:179), affinity bind (cpu.c:184-186), getcpu
(cpu.c:188-190), migration check (cpu.c:192-195), per-cpu window
allocation (cpu.c:197-199), Dune entry (cpu.c:201-205), registry
population with the `assert` (cpu.c:207-213), pool creation
(cpu.c:216-219). -/
def cpu_init_one (ncpu cpu_count : Nat) (amap : Nat → ApicidEntry)
    (env : InitEnv) (cpu : Nat) : InitResult × PerCpuState :=
  if cpu ≥ cpu_count then (InitResult.err (-EINVAL), initPerCpu)
  else if env.affinity_ret ≠ 0 then (InitResult.err (-EPERM), initPerCpu)
  else
    let st1 := { initPerCpu with affinity_bound := some cpu }
    if env.getcpu_ret ≠ 0 then (InitResult.err (-ENOSYS), st1)
    else if cpu ≠ env.getcpu_cpu then (InitResult.err (-EINVAL), st1)
    else if env.alloc_ok = false then (InitResult.err (-ENOMEM), st1)
    else
      let st2 := { st1 with percpu_offset_set := true }
      if env.dune_ret ≠ 0 then (InitResult.err env.dune_ret, st2)
      else
        let st3 := { st2 with
          dune_entered := true
          cpu_id_v := some cpu
          cpu_numa_node_v := some env.getcpu_node }
        match apicid_lookup ncpu amap cpu with
        | none => (InitResult.assertFail, st3)
        | some i =>
          let st4 := { st3 with apicid_v := some (amap i).apicid }
          if env.mempool_ret ≠ 0 then (InitResult.err env.mempool_ret, st4)
          else (InitResult.ok, { st4 with pool_created := true })

/-- A concrete environment in which the affinity bind is rejected. -/
def env_affinity_fail : InitEnv :=
  { affinity_ret := 1, getcpu_ret := 0, getcpu_cpu := 0, getcpu_node := 0,
    alloc_ok := true, dune_ret := 0, mempool_ret := 0 }

/-- A concrete environment in which every external bring-up call
succeeds. -/
def env_ok : InitEnv :=
  { affinity_ret := 0, getcpu_ret := 0, getcpu_cpu := 0, getcpu_node := 1,
    alloc_ok := true, dune_ret := 0, mempool_ret := 0 }

/-- Outcomes of the external calls `cpu_init` makes:
`sysconf(_SC_NPROCESSORS_CONF)` (cpu.c:279), `mempool_create_datastore`
(cpu.c:286) and the `/proc/cpuinfo` stream that `parse_cpuinfo` reads. -/
structure CpuInitEnv where
  detected : Int
  datastore_ret : Int
  cpuinfo : Option (List ReadEvent)

/-- The process-wide state `cpu_init` writes: the global `cpu_count`
(assigned at cpu.c:279 before any check), whether the runners datastore
was created (cpu.c:286), and the `apicid_map` entries recorded by the
topology scan (cpu.c:292). -/
structure GlobalState where
  cpu_count_g : Int
  datastore_created : Bool
  amap_entries : List ApicidEntry
  deriving DecidableEq

/-- Models `cpu_init` (cpu.c:275-297): read the detected processor
count, range-check it against (0, NCPU], create the shared runners
datastore, then scan the topology source. -/
def cpu_init (ncpu : Nat) (junk : Int) (env : CpuInitEnv) : Int × GlobalState :=
  let g0 : GlobalState :=
    { cpu_count_g := env.detected, datastore_created := false, amap_entries := [] }
  if env.detected ≤ 0 ∨ env.detected > (ncpu : Int) then (-EINVAL, g0)
  else if env.datastore_ret ≠ 0 then (env.datastore_ret, g0)
  else
    let p := parse_cpuinfo junk env.cpuinfo
    let g1 := { g0 with datastore_created := true, amap_entries := p.2 }
    if p.1 ≠ 0 then (p.1, g1) else (0, g1)

-- Helper lemmas about the table-update function and the drain loop.

theorem upd_same {α : Type} (f : Nat → α) (i : Nat) (v : α) : upd f i v i = v := by
  simp [upd]

theorem upd_other {α : Type} (f : Nat → α) (i : Nat) (v : α) (n : Nat) (h : n ≠ i) :
    upd f i v n = f n := by
  simp [upd, h]

theorem drain_execute_runlist (c : Nat) (ch : List Runner) :
    ∀ s : CpuSys, (drain_execute s c ch).1.runlist = s.runlist := by
  induction ch with
  | nil => intro s; rfl
  | cons r rest ih => intro s; simpa [drain_execute] using ih _

theorem drain_execute_cpu_count (c : Nat) (ch : List Runner) :
    ∀ s : CpuSys, (drain_execute s c ch).1.cpu_count = s.cpu_count := by
  induction ch with
  | nil => intro s; rfl
  | cons r rest ih => intro s; simpa [drain_execute] using ih _

theorem drain_execute_poolFree (c : Nat) (ch : List Runner) :
    ∀ (s : CpuSys) (n : Nat),
      (drain_execute s c ch).1.poolFree n =
        s.poolFree n + (if n = c then ch.length else 0) := by
  induction ch with
  | nil => intro s n; simp [drain_execute]
  | cons r rest ih =>
    intro s n
    by_cases h : n = c
    · subst h
      simp [drain_execute, ih, upd]
      omega
    · simp [drain_execute, ih, upd, h]

theorem drain_execute_events (c : Nat) (ch : List Runner) :
    ∀ s : CpuSys, (drain_execute s c ch).2 = chainEvents c ch := by
  induction ch with
  | nil => intro s; rfl
  | cons r rest ih => intro s; simp [drain_execute, chainEvents, ih]

theorem callsOf_chainEvents (c : Nat) (ch : List Runner) :
    callsOf (chainEvents c ch) = ch.map (fun r => (r.func, r.data)) := by
  induction ch with
  | nil => rfl
  | cons r rest ih => simp [chainEvents, callsOf, ih]

theorem count_free_chainEvents (c c' : Nat) (ch : List Runner) :
    (chainEvents c ch).count (Event.free c') =
      if c' = c then ch.length else 0 := by
  induction ch with
  | nil => simp [chainEvents]
  | cons r rest ih =>
    by_cases h : c' = c
    · subst h; simp [chainEvents, List.count_cons, ih]
    · simp [chainEvents, List.count_cons, ih, h, Event.free.injEq]

/-- Successful-path characterization of `cpu_run_on_one`. -/
theorem cpu_run_on_one_success (s : CpuSys) (caller f d cpu : Nat)
    (hc : cpu < s.cpu_count) (hp : s.poolFree caller ≠ 0) :
    cpu_run_on_one s caller f d cpu =
      (0,
       { s with poolFree := upd s.poolFree caller (s.poolFree caller - 1),
                runlist := upd s.runlist cpu ({ func := f, data := d } :: s.runlist cpu) },
       [Event.lock cpu, Event.push cpu, Event.unlock cpu]) := by
  have h1 : ¬ cpu ≥ s.cpu_count := by omega
  simp [cpu_run_on_one, h1, hp]

/-- Nonempty-queue characterization of `cpu_do_bookkeeping`. -/
theorem cpu_do_bookkeeping_nonempty (s : CpuSys) (c : Nat) (h : s.runlist c ≠ []) :
    cpu_do_bookkeeping s c =
      ((drain_execute { s with runlist := upd s.runlist c [] } c (s.runlist c)).1,
       Event.lock c :: Event.swap c :: Event.unlock c ::
         chainEvents c (s.runlist c)) := by
  simp [cpu_do_bookkeeping, drain_capture, h, drain_execute_events]

theorem cpu_run_on_one_cpu_count (s : CpuSys) (k f d cpu : Nat) :
    (cpu_run_on_one s k f d cpu).2.1.cpu_count = s.cpu_count := by
  by_cases h1 : cpu ≥ s.cpu_count
  · simp [cpu_run_on_one, h1]
  · by_cases h2 : s.poolFree k = 0
    · simp [cpu_run_on_one, h1, h2]
    · simp [cpu_run_on_one, h1, h2]

theorem cpu_run_on_one_runlist_target (s : CpuSys) (k f d cpu : Nat)
    (hc : cpu < s.cpu_count) (hp : s.poolFree k ≠ 0) :
    (cpu_run_on_one s k f d cpu).2.1.runlist cpu =
      { func := f, data := d } :: s.runlist cpu := by
  rw [cpu_run_on_one_success s k f d cpu hc hp]
  simp [upd]

theorem drain_capture_chain (s : CpuSys) (c : Nat) :
    (drain_capture s c).1 = s.runlist c := by
  by_cases h : s.runlist c = []
  · simp [drain_capture, h]
  · simp [drain_capture, h]

theorem drain_capture_runlist_c (s : CpuSys) (c : Nat) :
    (drain_capture s c).2.1.runlist c = [] := by
  by_cases h : s.runlist c = []
  · simp [drain_capture, h]
  · simp [drain_capture, h, upd]

theorem drain_capture_poolFree (s : CpuSys) (c : Nat) :
    (drain_capture s c).2.1.poolFree = s.poolFree := by
  by_cases h : s.runlist c = []
  · simp [drain_capture, h]
  · simp [drain_capture, h]

theorem drain_capture_cpu_count (s : CpuSys) (c : Nat) :
    (drain_capture s c).2.1.cpu_count = s.cpu_count := by
  by_cases h : s.runlist c = []
  · simp [drain_capture, h]
  · simp [drain_capture, h]

/-- C8: for every target index at or beyond `cpu_count`, `cpu_run_on_one`
returns `-EINVAL` (the invalid-target error), performs no pool allocation
and no queue modification (the state is returned unchanged), and emits no
events (in particular it touches no lock). -/
theorem C8_submit_invalid_target (s : CpuSys) (caller f d cpu : Nat)
    (h : cpu ≥ s.cpu_count) :
    cpu_run_on_one s caller f d cpu = (-EINVAL, s, []) := by
  simp [cpu_run_on_one, h]

theorem C8_submit_invalid_target_witness :
    cpu_run_on_one s0 0 7 8 5 = (-EINVAL, s0, []) :=
  C8_submit_invalid_target s0 0 7 8 5 (by decide)

/-- C10: when a core's queue head is empty, `cpu_do_bookkeeping` on that
core is a no-op: the state is returned unchanged and the event trace is
empty, so no lock is acquired, no function is executed and nothing is
freed. -/
theorem C10_drain_empty_noop (s : CpuSys) (c : Nat) (h : s.runlist c = []) :
    cpu_do_bookkeeping s c = (s, []) := by
  simp [cpu_do_bookkeeping, h]

theorem C10_drain_empty_noop_witness : cpu_do_bookkeeping s0 1 = (s0, []) :=
  C10_drain_empty_noop s0 1 rfl

/-- C1 counterexample: on the concrete two-core state `s0`, a submission
made from core 0 targeting core 1 succeeds, yet core 1's pool (the
target's pool) is left untouched while core 0's pool (the caller's pool)
loses one element: the WorkItem is not allocated from the target core's
pool, contrary to the claim. -/
theorem C1_counterexample :
    (cpu_run_on_one s0 0 7 8 1).1 = 0 ∧
    ¬ ((cpu_run_on_one s0 0 7 8 1).2.1.poolFree 1 = s0.poolFree 1 - 1) ∧
    (cpu_run_on_one s0 0 7 8 1).2.1.poolFree 1 = s0.poolFree 1 ∧
    (cpu_run_on_one s0 0 7 8 1).2.1.poolFree 0 = s0.poolFree 0 - 1 := by
  decide

/-- C1 amended: for every `cpu_run_on_one` call with a valid target and a
non-exhausted caller pool, the WorkItem is allocated from the pool of the
core on which the caller runs (that pool alone loses one free element),
and is pushed onto the head of the target core's queue (that queue alone
changes) with the push bracketed by that queue's lock acquire/release. -/
theorem C1_amended_submit_alloc_from_caller (s : CpuSys) (caller f d cpu : Nat)
    (hc : cpu < s.cpu_count) (hp : s.poolFree caller ≠ 0) :
    (cpu_run_on_one s caller f d cpu).1 = 0 ∧
    (cpu_run_on_one s caller f d cpu).2.1.poolFree caller = s.poolFree caller - 1 ∧
    (∀ n, n ≠ caller → (cpu_run_on_one s caller f d cpu).2.1.poolFree n = s.poolFree n) ∧
    (cpu_run_on_one s caller f d cpu).2.1.runlist cpu =
      { func := f, data := d } :: s.runlist cpu ∧
    (∀ n, n ≠ cpu → (cpu_run_on_one s caller f d cpu).2.1.runlist n = s.runlist n) ∧
    (cpu_run_on_one s caller f d cpu).2.2 =
      [Event.lock cpu, Event.push cpu, Event.unlock cpu] := by
  rw [cpu_run_on_one_success s caller f d cpu hc hp]
  refine ⟨rfl, ?_, ?_, ?_, ?_, rfl⟩
  · simp [upd]
  · intro n hn; simp [upd, hn]
  · simp [upd]
  · intro n hn; simp [upd, hn]

theorem C1_amended_submit_alloc_from_caller_witness :
    (cpu_run_on_one s0 0 7 8 1).1 = 0 ∧
    (cpu_run_on_one s0 0 7 8 1).2.1.poolFree 0 = s0.poolFree 0 - 1 := by
  have h := C1_amended_submit_alloc_from_caller s0 0 7 8 1 (by decide) (by decide)
  exact ⟨h.1, h.2.1⟩

/-- C4: three submissions A, B, C (in that order) to the same idle target
core, followed by one `cpu_do_bookkeeping` on that core, execute exactly
the call sequence C, B, A — the reverse of submission order, each item
exactly once. -/
theorem C4_lifo_execution_order (s : CpuSys) (c k1 k2 k3 fa da fb db fc dc : Nat)
    (hc : c < s.cpu_count) (hidle : s.runlist c = [])
    (h1 : s.poolFree k1 ≠ 0)
    (h2 : (cpu_run_on_one s k1 fa da c).2.1.poolFree k2 ≠ 0)
    (h3 : (cpu_run_on_one (cpu_run_on_one s k1 fa da c).2.1 k2 fb db c).2.1.poolFree k3 ≠ 0) :
    callsOf ((cpu_do_bookkeeping
        (cpu_run_on_one
          (cpu_run_on_one (cpu_run_on_one s k1 fa da c).2.1 k2 fb db c).2.1
          k3 fc dc c).2.1 c).2) =
      [(fc, dc), (fb, db), (fa, da)] := by
  have hc1 : c < (cpu_run_on_one s k1 fa da c).2.1.cpu_count := by
    rw [cpu_run_on_one_cpu_count]; exact hc
  have hc2 : c < (cpu_run_on_one (cpu_run_on_one s k1 fa da c).2.1 k2 fb db c).2.1.cpu_count := by
    rw [cpu_run_on_one_cpu_count, cpu_run_on_one_cpu_count]; exact hc
  have r1 := cpu_run_on_one_runlist_target s k1 fa da c hc h1
  have r2 := cpu_run_on_one_runlist_target _ k2 fb db c hc1 h2
  have r3 := cpu_run_on_one_runlist_target _ k3 fc dc c hc2 h3
  rw [r2, r1, hidle] at r3
  have hne : (cpu_run_on_one
      (cpu_run_on_one (cpu_run_on_one s k1 fa da c).2.1 k2 fb db c).2.1
      k3 fc dc c).2.1.runlist c ≠ [] := by
    rw [r3]; simp
  rw [cpu_do_bookkeeping_nonempty _ c hne, r3]
  simp [callsOf, chainEvents]

theorem C4_lifo_execution_order_witness :
    callsOf ((cpu_do_bookkeeping
        (cpu_run_on_one
          (cpu_run_on_one (cpu_run_on_one s3p 0 1 2 0).2.1 0 3 4 0).2.1
          0 5 6 0).2.1 0).2) =
      [(5, 6), (3, 4), (1, 2)] :=
  C4_lifo_execution_order s3p 0 0 0 0 1 2 3 4 5 6
    (by decide) rfl (by decide) (by decide) (by decide)

theorem cpu_run_on_one_local_inv (s : CpuSys) (c f d : Nat) :
    (cpu_run_on_one s c f d c).2.1.poolFree c +
        ((cpu_run_on_one s c f d c).2.1.runlist c).length =
      s.poolFree c + (s.runlist c).length ∧
    (∀ n, n ≠ c → (cpu_run_on_one s c f d c).2.1.poolFree n = s.poolFree n) ∧
    (∀ n, n ≠ c → (cpu_run_on_one s c f d c).2.1.runlist n = s.runlist n) ∧
    (cpu_run_on_one s c f d c).2.1.cpu_count = s.cpu_count := by
  by_cases h1 : c ≥ s.cpu_count
  · simp [cpu_run_on_one, h1]
  · by_cases h2 : s.poolFree c = 0
    · simp [cpu_run_on_one, h1, h2]
    · rw [cpu_run_on_one_success s c f d c (by omega) h2]
      refine ⟨?_, ?_, ?_, rfl⟩
      · simp [upd]
        omega
      · intro n hn; simp [upd, hn]
      · intro n hn; simp [upd, hn]

theorem submit_all_inv (c : Nat) (subs : List (Nat × Nat)) :
    ∀ s : CpuSys,
      (submit_all s c subs).poolFree c + ((submit_all s c subs).runlist c).length =
        s.poolFree c + (s.runlist c).length ∧
      (∀ n, n ≠ c → (submit_all s c subs).poolFree n = s.poolFree n) ∧
      (∀ n, n ≠ c → (submit_all s c subs).runlist n = s.runlist n) := by
  induction subs with
  | nil => intro s; exact ⟨rfl, fun _ _ => rfl, fun _ _ => rfl⟩
  | cons p rest ih =>
    intro s
    obtain ⟨f, d⟩ := p
    have hstep := cpu_run_on_one_local_inv s c f d
    have hrec := ih (cpu_run_on_one s c f d c).2.1
    refine ⟨?_, ?_, ?_⟩
    · rw [submit_all]
      rw [hrec.1, hstep.1]
    · intro n hn
      rw [submit_all]
      rw [hrec.2.1 n hn, hstep.2.1 n hn]
    · intro n hn
      rw [submit_all]
      rw [hrec.2.2 n hn, hstep.2.2.1 n hn]

/-- C2 counterexample: on the concrete state `s0`, one item is submitted
from core 0 to core 1 and core 1 then fully drains its queue.  The drain
completes (core 1's queue is empty afterwards), yet core 0's pool — the
pool the item was allocated from — ends one element short of its
pre-submission occupancy, while core 1's pool ends one element over: the
item was not freed back to the pool it was allocated from. -/
theorem C2_counterexample :
    (cpu_run_on_one s0 0 7 8 1).1 = 0 ∧
    (cpu_do_bookkeeping (cpu_run_on_one s0 0 7 8 1).2.1 1).1.runlist 1 = [] ∧
    (cpu_do_bookkeeping (cpu_run_on_one s0 0 7 8 1).2.1 1).1.poolFree 0 = 0 ∧
    s0.poolFree 0 = 1 ∧
    (cpu_do_bookkeeping (cpu_run_on_one s0 0 7 8 1).2.1 1).1.poolFree 1 = 2 ∧
    s0.poolFree 1 = 1 := by
  decide

/-- C2 amended: every WorkItem executed by a drain is freed exactly once,
into the pool of the core that performs the drain (which is the pool the
item was allocated from only when the submitter ran on its target core).
Consequently, when every submission to an idle core `c` is made from `c`
itself, a full drain of `c` restores every pool's occupancy to its
pre-submission count, and empties the queue. -/
theorem C2_amended_drain_frees_once_into_drainer_pool
    (s : CpuSys) (c : Nat) (subs : List (Nat × Nat)) (hidle : s.runlist c = []) :
    (∀ n, (cpu_do_bookkeeping (submit_all s c subs) c).1.poolFree n = s.poolFree n) ∧
    (cpu_do_bookkeeping (submit_all s c subs) c).1.runlist c = [] ∧
    ((cpu_do_bookkeeping (submit_all s c subs) c).2).count (Event.free c) =
      ((submit_all s c subs).runlist c).length ∧
    (∀ c', c' ≠ c →
      ((cpu_do_bookkeeping (submit_all s c subs) c).2).count (Event.free c') = 0) ∧
    callsOf ((cpu_do_bookkeeping (submit_all s c subs) c).2) =
      ((submit_all s c subs).runlist c).map (fun r => (r.func, r.data)) := by
  have inv := submit_all_inv c subs s
  rw [hidle] at inv
  by_cases hq : (submit_all s c subs).runlist c = []
  · rw [C10_drain_empty_noop _ c hq]
    have hlen := inv.1
    rw [hq] at hlen
    simp only [List.length_nil, Nat.add_zero] at hlen
    refine ⟨?_, hq, ?_, ?_, ?_⟩
    · intro n
      by_cases hn : n = c
      · subst hn; exact hlen
      · exact inv.2.1 n hn
    · rw [hq]; rfl
    · intro c' _; rfl
    · rw [hq]; rfl
  · rw [cpu_do_bookkeeping_nonempty _ c hq]
    refine ⟨?_, ?_, ?_, ?_, ?_⟩
    · intro n
      rw [drain_execute_poolFree]
      have hproj : ({ submit_all s c subs with
          runlist := upd (submit_all s c subs).runlist c [] } : CpuSys).poolFree =
          (submit_all s c subs).poolFree := rfl
      rw [hproj]
      by_cases hn : n = c
      · subst hn
        rw [if_pos rfl]
        have h1 := inv.1
        simp only [List.length_nil, Nat.add_zero] at h1
        omega
      · rw [if_neg hn, Nat.add_zero]
        exact inv.2.1 n hn
    · rw [drain_execute_runlist]
      simp [upd]
    · simp [List.count_cons, count_free_chainEvents]
    · intro c' hc'
      simp [List.count_cons, count_free_chainEvents, hc', Event.free.injEq]
    · simp [callsOf, callsOf_chainEvents]

theorem C2_amended_drain_frees_once_into_drainer_pool_witness :
    (cpu_do_bookkeeping (submit_all s0 0 [(7, 8)]) 0).1.poolFree 0 = s0.poolFree 0 ∧
    (cpu_do_bookkeeping (submit_all s0 0 [(7, 8)]) 0).1.runlist 0 = [] :=
  ⟨(C2_amended_drain_frees_once_into_drainer_pool s0 0 [(7, 8)] rfl).1 0,
   (C2_amended_drain_frees_once_into_drainer_pool s0 0 [(7, 8)] rfl).2.1⟩

/-- C5: the drain captures the queue by swapping the head to empty under
the lock and releases the lock before executing anything (the trace of a
nonempty drain is lock, swap, unlock, then the executions); the calls an
in-progress drain performs are exactly those of the pre-swap chain, so an
item submitted after the swap (here: pushed onto the post-swap queue) is
never executed by that drain, is not lost (it sits alone in the fresh
queue), and is executed exactly once by the next drain on that core. -/
theorem C5_submission_after_swap_goes_to_next_drain (s : CpuSys) (c k f d : Nat)
    (hc : c < s.cpu_count) (hp : s.poolFree k ≠ 0) :
    callsOf (drain_execute (cpu_run_on_one (drain_capture s c).2.1 k f d c).2.1 c
        (drain_capture s c).1).2 =
      (s.runlist c).map (fun r => (r.func, r.data)) ∧
    ((f, d) ∉ (s.runlist c).map (fun r => (r.func, r.data)) →
      (f, d) ∉ callsOf (drain_execute (cpu_run_on_one (drain_capture s c).2.1 k f d c).2.1 c
        (drain_capture s c).1).2) ∧
    (s.runlist c ≠ [] → (cpu_do_bookkeeping s c).2 =
      Event.lock c :: Event.swap c :: Event.unlock c :: chainEvents c (s.runlist c)) ∧
    (cpu_run_on_one (drain_capture s c).2.1 k f d c).1 = 0 ∧
    (drain_execute (cpu_run_on_one (drain_capture s c).2.1 k f d c).2.1 c
        (drain_capture s c).1).1.runlist c = [{ func := f, data := d }] ∧
    callsOf ((cpu_do_bookkeeping
        (drain_execute (cpu_run_on_one (drain_capture s c).2.1 k f d c).2.1 c
          (drain_capture s c).1).1 c).2) = [(f, d)] := by
  have hc' : c < (drain_capture s c).2.1.cpu_count := by
    rw [drain_capture_cpu_count]; exact hc
  have hp' : (drain_capture s c).2.1.poolFree k ≠ 0 := by
    rw [drain_capture_poolFree]; exact hp
  have hcalls : callsOf (drain_execute (cpu_run_on_one (drain_capture s c).2.1 k f d c).2.1 c
      (drain_capture s c).1).2 = (s.runlist c).map (fun r => (r.func, r.data)) := by
    rw [drain_execute_events, drain_capture_chain, callsOf_chainEvents]
  have hq : (cpu_run_on_one (drain_capture s c).2.1 k f d c).2.1.runlist c =
      [{ func := f, data := d }] := by
    rw [cpu_run_on_one_runlist_target _ k f d c hc' hp', drain_capture_runlist_c]
  have hexq : (drain_execute (cpu_run_on_one (drain_capture s c).2.1 k f d c).2.1 c
      (drain_capture s c).1).1.runlist c = [{ func := f, data := d }] := by
    rw [drain_execute_runlist, hq]
  refine ⟨hcalls, ?_, ?_, ?_, hexq, ?_⟩
  · intro hnot
    rw [hcalls]
    exact hnot
  · intro h
    rw [cpu_do_bookkeeping_nonempty s c h]
  · rw [cpu_run_on_one_success _ k f d c hc' hp']
  · have hne : (drain_execute (cpu_run_on_one (drain_capture s c).2.1 k f d c).2.1 c
        (drain_capture s c).1).1.runlist c ≠ [] := by
      rw [hexq]; simp
    rw [cpu_do_bookkeeping_nonempty _ c hne, hexq]
    simp [callsOf, chainEvents]

theorem C5_submission_after_swap_goes_to_next_drain_witness :
    callsOf ((cpu_do_bookkeeping
        (drain_execute (cpu_run_on_one (drain_capture s0q 0).2.1 1 9 10 0).2.1 0
          (drain_capture s0q 0).1).1 0).2) = [(9, 10)] :=
  (C5_submission_after_swap_goes_to_next_drain s0q 0 1 9 10
    (by decide) (by decide)).2.2.2.2.2

theorem parse_cpuinfo_loop_ret_zero (junk : Int) (evs : List ReadEvent) :
    ∀ (proc : Option Int) (acc : List ApicidEntry),
      (parse_cpuinfo_loop junk evs proc acc).1 = 0 ↔ ∀ e ∈ evs, goodEvent e = true := by
  induction evs with
  | nil => intro proc acc; simp [parse_cpuinfo_loop]
  | cons e rest ih =>
    intro proc acc
    cases e with
    | readError => simp [parse_cpuinfo_loop, goodEvent, EIO_val]
    | line s =>
      by_cases hp : "processor".data.isPrefixOf s.data
      · rcases hv : scanIdVal s with _ | v
        · simp [parse_cpuinfo_loop, hp, hv, goodEvent, EIO_val]
        · by_cases ha : "apicid".data.isPrefixOf s.data
          · simp [parse_cpuinfo_loop, hp, ha, hv, goodEvent, ih]
          · simp [parse_cpuinfo_loop, hp, ha, hv, goodEvent, ih]
      · by_cases ha : "apicid".data.isPrefixOf s.data
        · rcases hv : scanIdVal s with _ | v
          · simp [parse_cpuinfo_loop, hp, ha, hv, goodEvent, EIO_val]
          · simp [parse_cpuinfo_loop, hp, ha, hv, goodEvent, ih]
        · simp [parse_cpuinfo_loop, hp, ha, goodEvent, ih]

/-- C3 counterexample: on the single-line stream `"apicid : 7"` — an
identifier record not preceded by any processor-index record — the scan
returns 0 (success), not a failure, and it does record an entry, pairing
the identifier 7 with the stale/indeterminate processor value (here the
indeterminate value is instantiated to 0).  This contradicts the claim
that every such out-of-order stream makes the scan return a failure
rather than record an entry. -/
theorem C3_counterexample :
    parse_cpuinfo 0 (some [ReadEvent.line "apicid : 7"]) =
      (0, [{ processor := 0, apicid := 7 }]) := by
  decide

/-- C3 amended: the scan fails (with the I/O error) exactly when the
source cannot be opened, a read fails mid-stream, or a recognized record
(processor/apicid prefix) carries an unparsable value.  An identifier
record that is not preceded by its processor-index record is NOT treated
as a failure: it is accepted and recorded, paired with the most recently
seen (or indeterminate initial) processor index. -/
theorem C3_amended_scan_failure_characterization (junk : Int)
    (input : Option (List ReadEvent)) :
    (parse_cpuinfo junk input).1 = 0 ↔
      ∃ evs, input = some evs ∧ ∀ e ∈ evs, goodEvent e = true := by
  cases input with
  | none =>
    simp only [parse_cpuinfo]
    constructor
    · intro h; exact absurd h (by decide)
    · rintro ⟨evs, h, -⟩; exact absurd h (by simp)
  | some evs =>
    simp only [parse_cpuinfo, parse_cpuinfo_loop_ret_zero]
    constructor
    · intro h; exact ⟨evs, rfl, h⟩
    · rintro ⟨evs', h, hg⟩
      cases h
      intro e he
      exact hg e he

theorem C3_amended_scan_failure_characterization_witness :
    (parse_cpuinfo 0 (some [ReadEvent.line "processor : 3"])).1 = 0 :=
  (C3_amended_scan_failure_characterization 0 (some [ReadEvent.line "processor : 3"])).mpr
    ⟨[ReadEvent.line "processor : 3"], rfl, by decide⟩

/-- C6: for a valid core index, `cpu_init_one` performs its steps in the
fixed source order; on the first step that fails it returns that step's
specific error, and the returned state shows that no later step ran and
that nothing written by earlier steps was cleaned up (the affinity
binding, and the per-cpu memory window registration, persist into the
failing return). -/
theorem C6_bring_up_fail_fast (ncpu cpu_count : Nat) (amap : Nat → ApicidEntry)
    (env : InitEnv) (cpu : Nat) (hcpu : cpu < cpu_count) :
    (env.affinity_ret ≠ 0 →
      cpu_init_one ncpu cpu_count amap env cpu = (InitResult.err (-EPERM), initPerCpu)) ∧
    (env.affinity_ret = 0 → env.getcpu_ret ≠ 0 →
      cpu_init_one ncpu cpu_count amap env cpu =
        (InitResult.err (-ENOSYS), { initPerCpu with affinity_bound := some cpu })) ∧
    (env.affinity_ret = 0 → env.getcpu_ret = 0 → cpu ≠ env.getcpu_cpu →
      cpu_init_one ncpu cpu_count amap env cpu =
        (InitResult.err (-EINVAL), { initPerCpu with affinity_bound := some cpu })) ∧
    (env.affinity_ret = 0 → env.getcpu_ret = 0 → cpu = env.getcpu_cpu →
      env.alloc_ok = false →
      cpu_init_one ncpu cpu_count amap env cpu =
        (InitResult.err (-ENOMEM), { initPerCpu with affinity_bound := some cpu })) ∧
    (env.affinity_ret = 0 → env.getcpu_ret = 0 → cpu = env.getcpu_cpu →
      env.alloc_ok = true → env.dune_ret ≠ 0 →
      cpu_init_one ncpu cpu_count amap env cpu =
        (InitResult.err env.dune_ret,
         { initPerCpu with affinity_bound := some cpu, percpu_offset_set := true })) ∧
    (∀ i, env.affinity_ret = 0 → env.getcpu_ret = 0 → cpu = env.getcpu_cpu →
      env.alloc_ok = true → env.dune_ret = 0 →
      apicid_lookup ncpu amap cpu = some i → env.mempool_ret ≠ 0 →
      cpu_init_one ncpu cpu_count amap env cpu =
        (InitResult.err env.mempool_ret,
         { affinity_bound := some cpu, percpu_offset_set := true, dune_entered := true,
           cpu_id_v := some cpu, cpu_numa_node_v := some env.getcpu_node,
           apicid_v := some (amap i).apicid, pool_created := false })) := by
  have hge : ¬ cpu ≥ cpu_count := by omega
  refine ⟨?_, ?_, ?_, ?_, ?_, ?_⟩
  · intro h1; simp [cpu_init_one, hge, h1]
  · intro h1 h2; simp [cpu_init_one, hge, h1, h2]
  · intro h1 h2 h3; simp [cpu_init_one, hge, h1, h2, h3]
  · intro h1 h2 h3 h4; simp [cpu_init_one, hge, h1, h2, ← h3, h4]
  · intro h1 h2 h3 h4 h5; simp [cpu_init_one, hge, h1, h2, ← h3, h4, h5]
  · intro i h1 h2 h3 h4 h5 h6 h7
    simp [cpu_init_one, initPerCpu, hge, h1, h2, ← h3, h4, h5, h6, h7]

theorem C6_bring_up_fail_fast_witness :
    cpu_init_one 2 1 (fun _ => { processor := 0, apicid := 11 }) env_affinity_fail 0 =
      (InitResult.err (-EPERM), initPerCpu) :=
  (C6_bring_up_fail_fast 2 1 (fun _ => { processor := 0, apicid := 11 })
    env_affinity_fail 0 (by decide)).1 (by decide)

theorem cpu_init_one_assert_case (ncpu cpu_count : Nat) (amap : Nat → ApicidEntry)
    (env : InitEnv) (cpu : Nat)
    (hcpu : cpu < cpu_count) (haff : env.affinity_ret = 0)
    (hget : env.getcpu_ret = 0) (hmig : cpu = env.getcpu_cpu)
    (halloc : env.alloc_ok = true) (hdune : env.dune_ret = 0)
    (hl : apicid_lookup ncpu amap cpu = none) :
    (cpu_init_one ncpu cpu_count amap env cpu).1 = InitResult.assertFail := by
  have hge : ¬ cpu ≥ cpu_count := by omega
  simp [cpu_init_one, hge, haff, hget, ← hmig, halloc, hdune, hl]

theorem cpu_init_one_found_case (ncpu cpu_count : Nat) (amap : Nat → ApicidEntry)
    (env : InitEnv) (cpu : Nat)
    (hcpu : cpu < cpu_count) (haff : env.affinity_ret = 0)
    (hget : env.getcpu_ret = 0) (hmig : cpu = env.getcpu_cpu)
    (halloc : env.alloc_ok = true) (hdune : env.dune_ret = 0)
    (i : Nat) (hl : apicid_lookup ncpu amap cpu = some i) :
    (cpu_init_one ncpu cpu_count amap env cpu).1 ≠ InitResult.assertFail ∧
    (cpu_init_one ncpu cpu_count amap env cpu).2.apicid_v = some (amap i).apicid := by
  have hge : ¬ cpu ≥ cpu_count := by omega
  by_cases hm : env.mempool_ret = 0
  · simp [cpu_init_one, hge, haff, hget, ← hmig, halloc, hdune, hl, hm]
  · simp [cpu_init_one, hge, haff, hget, ← hmig, halloc, hdune, hl, hm]

/-- C9: under the precondition that every earlier bring-up step succeeds,
the registry-population step of `cpu_init_one` fails its consistency
assertion exactly when no entry of the NCPU-entry topology table has
logical index `cpu`; and whenever the table does pair `cpu` with a
hardware identifier (consistently, if it does so more than once), the
assertion branch is not taken and that identifier is the one recorded in
the per-cpu `apicid` variable. -/
theorem C9_registry_assert_iff_no_entry (ncpu cpu_count : Nat)
    (amap : Nat → ApicidEntry) (env : InitEnv) (cpu : Nat)
    (hcpu : cpu < cpu_count) (haff : env.affinity_ret = 0)
    (hget : env.getcpu_ret = 0) (hmig : cpu = env.getcpu_cpu)
    (halloc : env.alloc_ok = true) (hdune : env.dune_ret = 0) :
    ((cpu_init_one ncpu cpu_count amap env cpu).1 = InitResult.assertFail ↔
      ∀ k, k < ncpu → (amap k).processor ≠ (cpu : Int)) ∧
    (∀ j, j < ncpu → (amap j).processor = (cpu : Int) →
      (∀ k, k < ncpu → (amap k).processor = (cpu : Int) →
        (amap k).apicid = (amap j).apicid) →
      (cpu_init_one ncpu cpu_count amap env cpu).1 ≠ InitResult.assertFail ∧
      (cpu_init_one ncpu cpu_count amap env cpu).2.apicid_v = some (amap j).apicid) := by
  constructor
  · constructor
    · intro hfail k hk hkp
      rcases hl : apicid_lookup ncpu amap cpu with _ | i
      · have := List.find?_eq_none.mp hl k (List.mem_range.mpr hk)
        simp [hkp] at this
      · exact absurd hfail
          (cpu_init_one_found_case ncpu cpu_count amap env cpu
            hcpu haff hget hmig halloc hdune i hl).1
    · intro hall
      have hl : apicid_lookup ncpu amap cpu = none := by
        apply List.find?_eq_none.mpr
        intro i hi
        simpa using hall i (List.mem_range.mp hi)
      exact cpu_init_one_assert_case ncpu cpu_count amap env cpu
        hcpu haff hget hmig halloc hdune hl
  · intro j hj hjp huniq
    rcases hl : apicid_lookup ncpu amap cpu with _ | i
    · have := List.find?_eq_none.mp hl j (List.mem_range.mpr hj)
      simp [hjp] at this
    · have hfc := cpu_init_one_found_case ncpu cpu_count amap env cpu
        hcpu haff hget hmig halloc hdune i hl
      have hpi : (amap i).processor = (cpu : Int) := by
        have := List.find?_some hl
        simpa using this
      have hi : i < ncpu := List.mem_range.mp (List.mem_of_find?_eq_some hl)
      exact ⟨hfc.1, by rw [hfc.2, huniq i hi hpi]⟩

theorem C9_registry_assert_iff_no_entry_witness :
    (cpu_init_one 2 1 (fun _ => { processor := 0, apicid := 11 }) env_ok 0).1 ≠
      InitResult.assertFail ∧
    (cpu_init_one 2 1 (fun _ => { processor := 0, apicid := 11 }) env_ok 0).2.apicid_v =
      some 11 :=
  (C9_registry_assert_iff_no_entry 2 1 (fun _ => { processor := 0, apicid := 11 })
      env_ok 0 (by decide) rfl rfl rfl rfl rfl).2
    0 (by decide) rfl (fun _ _ _ => rfl)

/-- C7: for every detected core count outside (0, NCPU], `cpu_init`
returns `-EINVAL` with the datastore not created and no topology entry
recorded — the failure happens before `mempool_create_datastore` and
before `parse_cpuinfo` run. -/
theorem C7_cpu_init_range_check (ncpu : Nat) (junk : Int) (env : CpuInitEnv)
    (h : env.detected ≤ 0 ∨ env.detected > (ncpu : Int)) :
    cpu_init ncpu junk env =
      (-EINVAL,
       { cpu_count_g := env.detected, datastore_created := false,
         amap_entries := [] }) := by
  simp [cpu_init, h]

theorem C7_cpu_init_range_check_witness :
    cpu_init 4 0 { detected := 0, datastore_ret := 0, cpuinfo := some [] } =
      (-EINVAL,
       { cpu_count_g := 0, datastore_created := false, amap_entries := [] }) :=
  C7_cpu_init_range_check 4 0 { detected := 0, datastore_ret := 0, cpuinfo := some [] }
    (Or.inl (by decide))
